import Mathlib

/-!
Verification of the ETF portfolio optimization and risk simulation engine
(app.py) against its specification.

Embedding conventions:
- Python floats are modelled by the rationals; real-valued library routines
  that cannot return rationals (square roots, fractional powers) are modelled
  by oracle parameters (s : Rat -> Rat for numpy sqrt and std, rpow for the
  Python ** operator on fractional exponents).
- The external SLSQP solver (scipy.optimize.minimize) is modelled by an
  oracle value of type Option SolverResult: none stands for a raised
  exception (the except branch of the source), some r for a returned result
  with the success flag and the solution vector r.x.
- Random draws (numpy seeded generators) are modelled by oracle functions
  indexed by the position of the draw in the source's loop nest; a draw of
  numpy normal(mu, sigma) is modelled as mu + sigma * z with z the oracle
  value, the standard-normal decomposition.
- A Python dict result is modelled by a structure; a raised, uncaught
  exception (IndexError, ZeroDivisionError on plain floats) is modelled by
  an Option-none result.
- Python sorted and list.sort are stable; they are modelled by the stable
  List.insertionSort, whose placement rule (new element goes before equal
  keys already sorted that came later in the original list) matches the
  stable semantics of the source for both ascending and reverse=True sorts.
-/

set_option maxRecDepth 8000

attribute [local semireducible] Rat.add Rat.mul Rat.inv Rat.sub Rat.ofScientific

/-- A raw catalog record as consumed by filter_valid_etfs: the source reads
most fields with dict.get and a default, so those fields are optional here;
ticker and name are always accessed directly. -/
structure RawETF where
  ticker : String
  name : String
  dividend_yield : Option ℚ
  expected_dividend_yield : Option ℚ
  cagr_1y : Option ℚ
  cagr_3y : Option ℚ
  cagr_5y : Option ℚ
  volatility : Option ℚ
  beta : Option ℚ
  max_drawdown : Option ℚ
  risk_level : Option ℚ
  category : Option String
  dividend_quality : Option ℚ
  dividend_growth : Option ℚ
  dividend_consistency : Option ℚ
deriving DecidableEq

/-- A validated asset record, with every field filled in, exactly as built by
filter_valid_etfs. -/
structure ETF where
  ticker : String
  name : String
  dividend_yield : ℚ
  cagr_1y : ℚ
  cagr_3y : ℚ
  cagr_5y : ℚ
  volatility : ℚ
  beta : ℚ
  max_drawdown : ℚ
  risk_level : ℚ
  category : String
  dividend_quality : ℚ
  dividend_growth : ℚ
  dividend_consistency : ℚ
deriving DecidableEq

/-- PortfolioOptimizer.filter_valid_etfs: keep assets whose 1-year return is
strictly positive, compute the effective dividend yield, and fill missing
fields with the documented defaults. The source reads cagr_1y directly after
the guard; the guard with dict.get default 0 means the field is present and
positive there, so the getD 0 read is equivalent. -/
def filter_valid_etfs (etf_list : List RawETF) : List ETF :=
  etf_list.filterMap (fun etf =>
    if etf.cagr_1y.getD 0 ≤ 0 then none
    else
      let current_dy := etf.dividend_yield.getD 0
      let expected_dy := etf.expected_dividend_yield.getD 0
      let effective_dy :=
        if expected_dy > 0 ∧ current_dy > expected_dy * (3/2) then expected_dy else current_dy
      let c1 := etf.cagr_1y.getD 0
      some { ticker := etf.ticker
             name := etf.name
             dividend_yield := effective_dy
             cagr_1y := c1
             cagr_3y := etf.cagr_3y.getD (c1 * (9/10))
             cagr_5y := etf.cagr_5y.getD (c1 * (4/5))
             volatility := etf.volatility.getD (3/20)
             beta := etf.beta.getD 1
             max_drawdown := etf.max_drawdown.getD (-(1/5))
             risk_level := etf.risk_level.getD 5
             category := etf.category.getD "UNKNOWN"
             dividend_quality := etf.dividend_quality.getD (1/2)
             dividend_growth := etf.dividend_growth.getD (1/50)
             dividend_consistency := etf.dividend_consistency.getD (1/2) })

/-- Investor profile; the source reads each key with dict.get and a default,
modelled here as a total record holding the four string dimensions. -/
structure InvestorProfile where
  risk_tolerance : String
  investment_horizon : String
  income_needs : String
  investment_focus : String
deriving DecidableEq

/-- risk_limits lookup of select_etfs_by_profile, default 6. -/
def riskLimit (risk_tolerance : String) : ℚ :=
  if risk_tolerance = "conservative" then 4
  else if risk_tolerance = "moderate" then 6
  else if risk_tolerance = "aggressive" then 10
  else 6

/-- horizon_weights lookup, default 1.0 for unlisted combinations. -/
def horizonMult (horizon category : String) : ℚ :=
  if horizon = "short" then
    (if category = "BND" then 2 else if category = "DIV" then 3/2 else
     if category = "LV" then 6/5 else 1)
  else if horizon = "medium" then
    (if category = "DIV" then 3/2 else if category = "LV" then 6/5 else
     if category = "LC" then 6/5 else 1)
  else if horizon = "long" then
    (if category = "GRO" then 3/2 else if category = "LC" then 6/5 else
     if category = "SC" then 6/5 else 1)
  else 1

/-- income_weights lookup, default 1.0 for unlisted combinations. -/
def incomeMult (income_need category : String) : ℚ :=
  if income_need = "low" then
    (if category = "GRO" then 3/2 else if category = "LC" then 6/5 else 1)
  else if income_need = "medium" then
    (if category = "DIV" then 6/5 else if category = "CC" then 6/5 else 1)
  else if income_need = "high" then
    (if category = "DIV" then 2 else if category = "CC" then 9/5 else
     if category = "BND" then 3/2 else 1)
  else 1

/-- focus_weights lookup, default 1.0 for unlisted combinations. -/
def focusMult (focus category : String) : ℚ :=
  if focus = "dividend" then
    (if category = "DIV" then 2 else if category = "CC" then 9/5 else
     if category = "RE" then 13/10 else 1)
  else if focus = "growth" then
    (if category = "GRO" then 2 else if category = "LC" then 3/2 else 1)
  else if focus = "balanced" then
    (if category = "DIV" then 13/10 else if category = "LC" then 13/10 else
     if category = "BND" then 13/10 else 1)
  else 1

/-- Per-asset profile score of select_etfs_by_profile. -/
def profileScore (profile : InvestorProfile) (target_value seed_money : ℚ) (etf : ETF) : ℚ :=
  let max_risk := riskLimit profile.risk_tolerance
  let risk_score := 1 - etf.risk_level / 10
  let risk_score :=
    if etf.risk_level > max_risk then
      max (risk_score - (etf.risk_level - max_risk) * (1/5)) 0
    else risk_score
  let target_score :=
    if profile.investment_focus = "dividend" then
      let target_div_yield := if seed_money > 0 then (target_value * 12) / seed_money else 0
      1 / (1 + |etf.dividend_yield - target_div_yield| * 10)
    else
      1 / (1 + |etf.cagr_1y - target_value| * 5)
  let dividend_factor :=
    if profile.investment_focus = "dividend" ∨ profile.income_needs = "high" then
      1/2 + (1/2) * etf.dividend_quality
    else 1
  risk_score *
    horizonMult profile.investment_horizon etf.category *
    incomeMult profile.income_needs etf.category *
    focusMult profile.investment_focus etf.category *
    target_score * dividend_factor

/-- The category-diversity augmentation loop at the end of
select_etfs_by_profile: walk the missing-category assets, stopping as soon as
3 categories are present or 8 assets are selected. categories is the Python
set, counted by cardinality. -/
def profileAugment : List ETF → List ETF → Finset String → List ETF
  | [], sel, _ => sel
  | e :: rest, sel, cats =>
    if 3 ≤ cats.card ∨ 8 ≤ sel.length then sel
    else profileAugment rest (sel ++ [e]) (insert e.category cats)

/-- PortfolioOptimizer.select_etfs_by_profile: score each asset, take the top
8 by score (stable descending sort), then run the diversity augmentation when
fewer than 3 categories are present and unselected assets remain. The
source's membership test (e not in selected_etfs) inside the missing-category
filter is always true, because the selected entries carry the added
profile_score key, so it is omitted; its sort key get of profile_score on the
unscored entries is the constant 0, kept here as the constant-key stable
sort (the identity). -/
def select_etfs_by_profile (valid_etfs : List ETF) (profile : InvestorProfile)
    (target_value seed_money : ℚ) : List ETF :=
  let scored := valid_etfs.map (fun e => (e, profileScore profile target_value seed_money e))
  let selected :=
    ((List.insertionSort (fun a b : ETF × ℚ => b.2 ≤ a.2) scored).take 8).map (·.1)
  let cats := (selected.map (·.category)).toFinset
  if cats.card < 3 ∧ selected.length < valid_etfs.length then
    let missing := valid_etfs.filter (fun e => e.category ∉ cats)
    let missing := List.insertionSort (fun _ _ : ETF => (0:ℚ) ≤ 0) missing
    profileAugment missing selected cats
  else selected

/-- Number of already selected assets of a category; the source's
category_count defaultdict is incremented exactly on append, so it always
equals this count. -/
def countCat (sel : List ETF) (c : String) : ℕ :=
  (sel.filter (fun x => x.category = c)).length

/-- First selection pass of the dividend branch of select_top_etfs: keep at
most 3 per category, no overall size limit. -/
def divStage1 : List ETF → List ETF → List ETF
  | [], sel => sel
  | e :: rest, sel =>
    if countCat sel e.category < 3 then divStage1 rest (sel ++ [e])
    else divStage1 rest sel

/-- First selection pass of the growth/balanced branch: stop at 5, at most 2
per category. -/
def groStage1 : List ETF → List ETF → List ETF
  | [], sel => sel
  | e :: rest, sel =>
    if 5 ≤ sel.length then sel
    else if countCat sel e.category < 2 then groStage1 rest (sel ++ [e])
    else groStage1 rest sel

/-- Fallback pass of the growth/balanced branch when fewer than 3 were
selected: add unselected assets still under the 2-per-category cap, breaking
once 3 are reached. -/
def groFallback : List ETF → List ETF → List ETF
  | [], sel => sel
  | e :: rest, sel =>
    if e ∉ sel ∧ countCat sel e.category < 2 then
      let sel' := sel ++ [e]
      if 3 ≤ sel'.length then sel' else groFallback rest sel'
    else groFallback rest sel

/-- Second pass of select_top_etfs: cap the candidate set at 8, and for the
dividend focus skip assets whose category already has 3 picks. -/
def topStage (isDiv : Bool) : List ETF → List ETF → List ETF
  | [], top => top
  | e :: rest, top =>
    if 8 ≤ top.length then top
    else if isDiv ∧ 3 ≤ countCat top e.category then topStage isDiv rest top
    else topStage isDiv rest (top ++ [e])

/-- Final fill pass of select_top_etfs when fewer than 3 assets were kept:
append from the remaining assets, with the loop's extra_needed counter. -/
def fillStage (isDiv : Bool) : List ETF → List ETF → ℕ → List ETF
  | [], top, _ => top
  | e :: rest, top, extra =>
    if 8 ≤ top.length ∨ (isDiv ∧ 3 ≤ countCat top e.category) then top
    else
      let top' := top ++ [e]
      if extra ≤ 1 then top' else fillStage isDiv rest top' (extra - 1)

/-- PortfolioOptimizer.select_top_etfs: focus-driven candidate selection
without a profile. -/
def select_top_etfs (valid_etfs : List ETF) (investment_focus : String)
    (target_value seed_money : ℚ) : List ETF :=
  if investment_focus = "dividend" then
    let target_div_yield := if seed_money > 0 then (target_value * 12) / seed_money else 0
    let sorted := List.insertionSort
      (fun a b : ETF => |a.dividend_yield - target_div_yield| ≤ |b.dividend_yield - target_div_yield|)
      valid_etfs
    let lst := divStage1 sorted []
    let top := topStage true lst []
    if top.length < 3 then
      let remaining := lst.filter (fun e => e ∉ top)
      let remaining := List.insertionSort
        (fun a b : ETF => |a.dividend_yield - target_div_yield| ≤ |b.dividend_yield - target_div_yield|)
        remaining
      fillStage true remaining top (3 - top.length)
    else top
  else
    let sorted := List.insertionSort
      (fun a b : ETF => |a.cagr_1y - target_value| ≤ |b.cagr_1y - target_value|) valid_etfs
    let s1 := groStage1 sorted []
    let lst := if s1.length < 3 then groFallback sorted s1 else s1
    let top := topStage false lst []
    if top.length < 3 then
      let remaining := lst.filter (fun e => e ∉ top)
      let remaining := List.insertionSort
        (fun a b : ETF => |a.cagr_1y - target_value| ≤ |b.cagr_1y - target_value|) remaining
      fillStage false remaining top (3 - top.length)
    else top

/-- Dot product of two equal-length vectors, numpy sum of elementwise
product. -/
def dotL (a b : List ℚ) : ℚ := (List.zipWith (· * ·) a b).sum

/-- Entry (i, j) of the synthetic covariance matrix: outer product of the
volatilities times the constant-0.5 correlation matrix with unit diagonal. -/
def covEntry (vols : List ℚ) (i j : ℕ) : ℚ :=
  vols.getD i 0 * vols.getD j 0 * (if i = j then 1 else 1/2)

/-- Component i of the matrix-vector product Cov . w. -/
def covDotW (vols ws : List ℚ) (i : ℕ) : ℚ :=
  ((List.range ws.length).map (fun j => covEntry vols i j * ws.getD j 0)).sum

/-- Portfolio variance w . (Cov . w) under the synthetic covariance model. -/
def portfolioVariance (vols ws : List ℚ) : ℚ :=
  ((List.range ws.length).map (fun i => ws.getD i 0 * covDotW vols ws i)).sum

/-- The negative_sharpe objective of optimize_weights_sharpe, with the sqrt
oracle s. -/
def negative_sharpe (s : ℚ → ℚ) (returnsv vols : List ℚ) (risk_free_rate : ℚ)
    (weights : List ℚ) : ℚ :=
  let port_return := dotL returnsv weights
  let port_stddev := s (portfolioVariance vols weights)
  let sharpe : ℚ := if port_stddev > 0 then (port_return - risk_free_rate) / port_stddev else 0;
  -sharpe

/-- The risk_contribution helper of optimize_risk_parity. -/
def risk_contribution (vols weights : List ℚ) : List ℚ :=
  let port_var := portfolioVariance vols weights
  (List.range weights.length).map (fun i =>
    if port_var > 0 then covDotW vols weights i * weights.getD i 0 / port_var
    else weights.getD i 0)

/-- The risk_parity_objective of optimize_risk_parity. -/
def risk_parity_objective (vols weights : List ℚ) : ℚ :=
  ((risk_contribution vols weights).map
    (fun rc => (rc - 1 / (weights.length : ℚ)) ^ 2)).sum

/-- The objective of optimize_target_return. -/
def target_return_objective (returnsv vols : List ℚ) (target_return : ℚ)
    (weights : List ℚ) : ℚ :=
  (dotL returnsv weights - target_return) ^ 2 * 100 + portfolioVariance vols weights * 10

/-- The objective of optimize_target_dividend. -/
def target_dividend_objective (div_yields div_qualities : List ℚ) (target_div_yield : ℚ)
    (weights : List ℚ) : ℚ :=
  (dotL div_yields weights - target_div_yield) ^ 2 * 100 - dotL div_qualities weights

/-- Result of a scipy.optimize.minimize call: the success flag and the
solution vector x. -/
structure SolverResult where
  success : Bool
  x : List ℚ
deriving DecidableEq

/-- The equal-weight initial vector [1/n] * n of every optimizer. -/
def equalWeights (n : ℕ) : List ℚ := List.replicate n (1 / (n : ℚ))

/-- The common return logic of all four optimizers around the solver call:
return result.x when the solver succeeds, the equal-weight initial vector
when it reports failure, and (from the except branch) the equal-weight
initial vector when it raises (solver oracle none). -/
def solverOutcome (n : ℕ) (solver : Option SolverResult) : List ℚ :=
  match solver with
  | some result => if result.success then result.x else equalWeights n
  | none => equalWeights n

/-- PortfolioOptimizer.optimize_weights_sharpe; the SLSQP call minimizing
negative_sharpe under bounds [0.05, 0.4] and the sum-1 equality constraint is
the solver oracle. -/
def optimize_weights_sharpe (solver : Option SolverResult) (risk_free_rate : ℚ)
    (etfs : List ETF) : List ℚ :=
  if etfs.length = 0 then [] else solverOutcome etfs.length solver

/-- PortfolioOptimizer.optimize_risk_parity, same solver-call shape around
risk_parity_objective. -/
def optimize_risk_parity (solver : Option SolverResult) (etfs : List ETF) : List ℚ :=
  if etfs.length = 0 then [] else solverOutcome etfs.length solver

/-- PortfolioOptimizer.optimize_min_variance, same solver-call shape around
the portfolio variance objective. -/
def optimize_min_variance (solver : Option SolverResult) (etfs : List ETF) : List ℚ :=
  if etfs.length = 0 then [] else solverOutcome etfs.length solver

/-- PortfolioOptimizer.optimize_target_return, same solver-call shape around
target_return_objective. -/
def optimize_target_return (solver : Option SolverResult) (target_return : ℚ)
    (etfs : List ETF) : List ℚ :=
  if etfs.length = 0 then [] else solverOutcome etfs.length solver

/-- PortfolioOptimizer.optimize_target_dividend, same solver-call shape
around target_dividend_objective. -/
def optimize_target_dividend (solver : Option SolverResult) (target_div_yield : ℚ)
    (etfs : List ETF) : List ℚ :=
  if etfs.length = 0 then [] else solverOutcome etfs.length solver

/-- A point of the sampled frontier: return, volatility, Sharpe and the
normalized weight vector. -/
structure PortPoint where
  ret : ℚ
  volatility : ℚ
  sharpe : ℚ
  weights : List ℚ
deriving DecidableEq

/-- Per-asset overlay point of the frontier data. -/
structure EtfPoint where
  ticker : String
  name : String
  ret : ℚ
  volatility : ℚ
  sharpe : ℚ
deriving DecidableEq

/-- The frontier result dict: the 100 sampled portfolios, the max-Sharpe and
min-volatility points among them, and the per-asset overlay points. -/
structure FrontierData where
  portfolios : List PortPoint
  max_sharpe : PortPoint
  min_volatility : PortPoint
  etf_points : List EtfPoint
deriving DecidableEq

/-- Python max(results, key=f): keep the current best and replace it only on
a strictly greater key, so the first maximal element wins. -/
def pickMaxBy {α : Type} (f : α → ℚ) (x : α) : List α → α
  | [] => x
  | y :: ys => pickMaxBy f (if f x < f y then y else x) ys

/-- Python min(results, key=f): replace only on a strictly smaller key. -/
def pickMinBy {α : Type} (f : α → ℚ) (x : α) : List α → α
  | [] => x
  | y :: ys => pickMinBy f (if f y < f x then y else x) ys

/-- One sampled frontier portfolio: raw uniform draws, L1-normalized, with
return, volatility (sqrt oracle s) and Sharpe at risk-free rate 0.03. -/
def frontierPoint (s : ℚ → ℚ) (returnsv vols raw : List ℚ) : PortPoint :=
  let total := raw.sum
  let weights := raw.map (fun w => w / total)
  let portfolio_return := dotL returnsv weights
  let portfolio_volatility := s (portfolioVariance vols weights)
  let sharpe_ratio :=
    if portfolio_volatility > 0 then (portfolio_return - 3/100) / portfolio_volatility else 0
  { ret := portfolio_return, volatility := portfolio_volatility,
    sharpe := sharpe_ratio, weights := weights }

/-- The list of num_portfolios sampled frontier portfolios, one per batch of
raw uniform draws. -/
def frontierResults (s : ℚ → ℚ) (draws : ℕ → ℕ → ℚ) (num_portfolios : ℕ)
    (etfs : List ETF) : List PortPoint :=
  (List.range num_portfolios).map (fun k =>
    frontierPoint s (etfs.map (·.cagr_1y)) (etfs.map (·.volatility))
      ((List.range etfs.length).map (fun i => draws k i)))

/-- PortfolioOptimizer.generate_efficient_frontier. The seeded uniform draws
are the oracle draws k i (portfolio k, asset i); num_portfolios is 100 at the
call site. Fewer than 2 candidates gives the empty dict, modelled none; the
max call on an empty sample list (num_portfolios = 0) raises in the source,
also modelled none. -/
def generate_efficient_frontier (s : ℚ → ℚ) (draws : ℕ → ℕ → ℚ)
    (num_portfolios : ℕ) (etfs : List ETF) : Option FrontierData :=
  if etfs.length < 2 then none
  else
    match frontierResults s draws num_portfolios etfs with
    | [] => none
    | r :: rs =>
      some { portfolios := r :: rs
             max_sharpe := pickMaxBy (·.sharpe) r rs
             min_volatility := pickMinBy (·.volatility) r rs
             etf_points := etfs.map (fun e =>
               let sh : ℚ := if e.volatility > 0 then (e.cagr_1y - 3/100) / e.volatility else 0
               { ticker := e.ticker, name := e.name, ret := e.cagr_1y,
                 volatility := e.volatility, sharpe := sh }) }

/-- A holding of the final portfolio; efficient_frontier is attached by
recommend_portfolio after build_portfolio. -/
structure Holding where
  name : String
  ticker : String
  weight : ℚ
  invest_amount : ℚ
  dividend_yield : ℚ
  annual_return : ℚ
  risk_level : ℚ
  category : String
  volatility : ℚ
  beta : ℚ
  expected_monthly_dividend : ℚ
  expected_annual_return_value : ℚ
  dividend_quality : ℚ
  efficient_frontier : Option FrontierData

/-- One holding entry of build_portfolio. -/
def mkHolding (seed_money : ℚ) (etf : ETF) (weight : ℚ) : Holding :=
  let invest_amount := seed_money * weight
  { name := etf.name, ticker := etf.ticker, weight := weight,
    invest_amount := invest_amount,
    dividend_yield := etf.dividend_yield, annual_return := etf.cagr_1y,
    risk_level := etf.risk_level, category := etf.category,
    volatility := etf.volatility, beta := etf.beta,
    expected_monthly_dividend := invest_amount * etf.dividend_yield / 12,
    expected_annual_return_value := invest_amount * etf.cagr_1y,
    dividend_quality := etf.dividend_quality,
    efficient_frontier := none }

/-- The weight adjustment of build_portfolio: renormalize when the sum drifts
from 1 by more than 1e-6. -/
def adjustWeights (weights : List ℚ) : List ℚ :=
  if 1/1000000 < |weights.sum - 1| then weights.map (fun w => w / weights.sum)
  else weights

/-- PortfolioOptimizer.build_portfolio: pair candidates with adjusted
weights, build holdings, and sort by descending weight (stable). -/
def build_portfolio (etfs : List ETF) (weights : List ℚ) (seed_money : ℚ) : List Holding :=
  List.insertionSort (fun a b : Holding => b.weight ≤ a.weight)
    (List.zipWith (mkHolding seed_money) etfs (adjustWeights weights))

/-- The optimization-method dispatch of recommend_portfolio: the four known
methods call their optimizer, anything else falls back to the equal-weight
vector. -/
def optimizeDispatch (optimization_method investment_focus : String)
    (seed_money target_value : ℚ) (solver : Option SolverResult)
    (top_etfs : List ETF) : List ℚ :=
  if optimization_method = "sharpe" then
    optimize_weights_sharpe solver (3/100) top_etfs
  else if optimization_method = "risk_parity" then
    optimize_risk_parity solver top_etfs
  else if optimization_method = "min_variance" then
    optimize_min_variance solver top_etfs
  else if optimization_method = "target_return" then
    if investment_focus = "dividend" then
      let target_div_yield := if seed_money > 0 then (target_value * 12) / seed_money else 0
      optimize_target_dividend solver target_div_yield top_etfs
    else
      optimize_target_return solver target_value top_etfs
  else
    equalWeights top_etfs.length

/-- PortfolioOptimizer.recommend_portfolio: filter, select (profile-driven or
focus-driven), optimize, build, and attach the efficient-frontier data. The
empty return with the error message when no asset passes the filter is the
empty list. -/
def recommend_portfolio (s : ℚ → ℚ) (draws : ℕ → ℕ → ℚ) (investment_focus : String)
    (seed_money target_value : ℚ) (investor_profile : Option InvestorProfile)
    (optimization_method : String) (solver : Option SolverResult)
    (etf_list : List RawETF) : List Holding :=
  let valid_etfs := filter_valid_etfs etf_list
  if valid_etfs = [] then []
  else
    let top_etfs :=
      match investor_profile with
      | some profile => select_etfs_by_profile valid_etfs profile target_value seed_money
      | none => select_top_etfs valid_etfs investment_focus target_value seed_money
    let optimized_weights :=
      optimizeDispatch optimization_method investment_focus seed_money target_value solver top_etfs
    let final_portfolio := build_portfolio top_etfs optimized_weights seed_money
    let ef_data := generate_efficient_frontier s draws 100 top_etfs
    final_portfolio.map (fun p => { p with efficient_frontier := ef_data })

/-- A named stress scenario: market-wide shock, volatility multiplier, and
per-category additional shocks. -/
structure Scenario where
  name : String
  description : String
  market_return : ℚ
  volatility_multiplier : ℚ
  sector_impacts : List (String × ℚ)
deriving DecidableEq

/-- The fixed scenarios dict of stress_test_portfolio; a name outside the
four known keys is not in the dict. -/
def scenarioDef (scenario : String) : Option Scenario :=
  if scenario = "bear_market" then
    some { name := "급격한 하락장 시나리오"
           description := "주식 시장이 급격히 하락하는 상황 (예: 코로나19 위기)"
           market_return := -(3/10), volatility_multiplier := 2
           sector_impacts := [("DIV", -(1/20)), ("GRO", -(1/4)), ("BND", 1/20),
                              ("CC", -(1/10)), ("RE", -(1/5)), ("COM", 1/10)] }
  else if scenario = "inflation" then
    some { name := "높은 인플레이션 시나리오"
           description := "급격한 인플레이션으로 금리 인상이 지속되는 상황"
           market_return := -(3/20), volatility_multiplier := 3/2
           sector_impacts := [("DIV", -(1/20)), ("GRO", -(1/5)), ("BND", -(1/10)),
                              ("CC", -(1/20)), ("RE", -(3/20)), ("COM", 1/5)] }
  else if scenario = "tech_crash" then
    some { name := "기술주 급락 시나리오"
           description := "기술주를 중심으로 한 성장주 급락 상황"
           market_return := -(1/5), volatility_multiplier := 9/5
           sector_impacts := [("DIV", 1/20), ("GRO", -(3/10)), ("BND", 1/10),
                              ("CC", -(1/20)), ("RE", 0), ("COM", 1/20)] }
  else if scenario = "fed_pivot" then
    some { name := "연준 금리 인하 시나리오"
           description := "연준의 급격한 금리 인하로 자산 가격 상승"
           market_return := 3/20, volatility_multiplier := 7/10
           sector_impacts := [("DIV", 1/20), ("GRO", 1/4), ("BND", 1/10),
                              ("CC", 1/20), ("RE", 3/20), ("COM", -(1/20))] }
  else none

/-- Per-asset entry of the stress-test result. -/
structure AssetImpact where
  ticker : String
  name : String
  category : String
  current_value : ℚ
  impact : ℚ
  value_change : ℚ
  new_value : ℚ
deriving DecidableEq

/-- Successful stress-test result dict. -/
structure StressData where
  scenario : String
  scenario_name : String
  description : String
  portfolio_impact : ℚ
  total_investment : ℚ
  total_value_change : ℚ
  new_portfolio_value : ℚ
  asset_impacts : List AssetImpact
deriving DecidableEq

/-- A stress-test return value: the error dict for an unknown scenario, or
the result dict. -/
inductive StressReturn where
  | err : String → StressReturn
  | ok : StressData → StressReturn
deriving DecidableEq

/-- Per-asset impact computation of stress_test_portfolio. Every holding
built by build_portfolio carries the volatility key, so the source's
membership test (volatility in p) is always true here. -/
def stressImpact (sp : Scenario) (p : Holding) : AssetImpact :=
  let base_impact := sp.market_return
  let sector_impact := (List.lookup p.category sp.sector_impacts).getD 0
  let total_impact := base_impact + sector_impact
  let vol_impact := p.volatility / (3/20)
  let final_impact := total_impact * vol_impact * sp.volatility_multiplier
  let value_change := p.invest_amount * final_impact
  { ticker := p.ticker, name := p.name, category := p.category,
    current_value := p.invest_amount, impact := final_impact,
    value_change := value_change,
    new_value := p.invest_amount * (1 + final_impact) }

/-- The result dict built by stress_test_portfolio for a known scenario:
per-asset impacts, totals, and the portfolio impact ratio. -/
def mkStressData (scenario : String) (scenario_params : Scenario)
    (portfolio : List Holding) : StressData :=
  let total_investment := (portfolio.map (·.invest_amount)).sum
  let asset_impacts := portfolio.map (stressImpact scenario_params)
  let total_value_change := (asset_impacts.map (·.value_change)).sum
  { scenario := scenario
    scenario_name := scenario_params.name
    description := scenario_params.description
    portfolio_impact := total_value_change / total_investment
    total_investment := total_investment
    total_value_change := total_value_change
    new_portfolio_value := total_investment + total_value_change
    asset_impacts := asset_impacts }

/-- PortfolioAnalyzer.stress_test_portfolio: error dict on an unknown
scenario name, otherwise the per-asset impacts and totals. A zero total
investment makes the portfolio_impact division raise ZeroDivisionError in
the source, modelled as none. -/
def stress_test_portfolio (portfolio : List Holding) (scenario : String) :
    Option StressReturn :=
  match scenarioDef scenario with
  | none => some (StressReturn.err ("지원하지 않는 시나리오: " ++ scenario))
  | some scenario_params =>
    if (portfolio.map (·.invest_amount)).sum = 0 then none
    else some (StressReturn.ok (mkStressData scenario scenario_params portfolio))

/-- Arithmetic mean, numpy mean (0/0 = 0 in the rationals on empty input). -/
def listMean (l : List ℚ) : ℚ := l.sum / (l.length : ℚ)

/-- Population variance, the square of numpy std. -/
def popVar (l : List ℚ) : ℚ :=
  ((l.map (fun x => (x - listMean l) ^ 2)).sum) / (l.length : ℚ)

/-- numpy percentile with the default linear interpolation on the sorted
data: index h = (n - 1) * q / 100, linear between the floor and ceil
positions. -/
def percentileQ (data : List ℚ) (q : ℚ) : ℚ :=
  let sorted := List.insertionSort (fun a b : ℚ => a ≤ b) data
  let h : ℚ := ((sorted.length : ℚ) - 1) * q / 100
  let fl : ℤ := Int.floor h
  let lo := fl.toNat
  let hi := (Int.ceil h).toNat
  let vlo := sorted.getD lo 0
  let vhi := sorted.getD hi 0
  vlo + (h - (fl : ℚ)) * (vhi - vlo)

/-- Total invested capital of a portfolio. -/
def totalInvest (portfolio : List Holding) : ℚ :=
  (portfolio.map (·.invest_amount)).sum

/-- Monte Carlo result dict. -/
structure SimResult where
  simulations : ℕ
  years : ℕ
  initial_investment : ℚ
  mean_return : ℚ
  std_dev : ℚ
  percentiles : List (String × ℚ)
  percentile_values : List (String × ℚ)
  expected_monthly_dividend : ℚ
  monthly_dividend_per_10m : ℚ
  sim_returns : List ℚ

/-- One simulated terminal outcome of monte_carlo_simulation: compound 252
daily portfolio returns per year and the years into one multiplier, minus 1.
noise simIdx year day i is the standard-normal draw of asset i, so the
sampled daily return mu + sigma * z models numpy normal(mu, sigma). -/
def mcRun (noise : ℕ → ℕ → ℕ → ℕ → ℚ) (daily : List (ℚ × ℚ)) (weights : List ℚ)
    (years : ℕ) (simIdx : ℕ) : ℚ :=
  ((List.range years).foldl (fun portfolio_value year =>
    portfolio_value *
      ((List.range 252).foldl (fun yearly_return day =>
        let daily_return_port :=
          ((List.range daily.length).map (fun i =>
            let ms := daily.getD i (0, 0)
            (ms.1 + ms.2 * noise simIdx year day i) * weights.getD i 0)).sum
        yearly_return * (1 + daily_return_port)) 1)) 1) - 1

/-- PortfolioAnalyzer.monte_carlo_simulation: none (the source returns None)
when the total invested capital is ≤ 0, otherwise the full simulation with
mean, std (sqrt oracle s), percentiles and dividend summary; rpow is the
oracle for the fractional Python ** converting annual to daily returns. The
alpha argument is unused in the source body. -/
def monte_carlo_simulation (s : ℚ → ℚ) (rpow : ℚ → ℚ → ℚ)
    (noise : ℕ → ℕ → ℕ → ℕ → ℚ) (portfolio : List Holding)
    (n_sim years : ℕ) (alpha : ℚ) : Option SimResult :=
  let total_invest := totalInvest portfolio
  if total_invest ≤ 0 then none
  else
    let daily := portfolio.map (fun p =>
      (rpow (1 + p.annual_return) (1/252) - 1, p.volatility / s 252))
    let weights := portfolio.map (fun p => p.invest_amount / total_invest)
    let annual_data := (List.range n_sim).map (mcRun noise daily weights years)
    let mean_return := listMean annual_data
    let std_dev := s (popVar annual_data)
    let percentiles := [("5th", percentileQ annual_data 5),
                        ("25th", percentileQ annual_data 25),
                        ("50th", percentileQ annual_data 50),
                        ("75th", percentileQ annual_data 75),
                        ("95th", percentileQ annual_data 95)]
    let percentile_values := percentiles.map (fun pv => (pv.1, total_invest * (1 + pv.2)))
    let monthly_dividend := (portfolio.map (fun p => p.weight * p.dividend_yield / 12)).sum
    let expected_monthly_dividend := total_invest * monthly_dividend
    some { simulations := n_sim, years := years,
           initial_investment := total_invest,
           mean_return := mean_return, std_dev := std_dev,
           percentiles := percentiles, percentile_values := percentile_values,
           expected_monthly_dividend := expected_monthly_dividend,
           monthly_dividend_per_10m := expected_monthly_dividend * 10000000 / total_invest,
           sim_returns := annual_data }

/-- A calendar date (year, month, day) as compared by the source's datetime
objects. -/
structure Date where
  y : ℕ
  m : ℕ
  d : ℕ
deriving DecidableEq

/-- Lexicographic date comparison, the datetime ≤ of the month loop. -/
def dateLe (a b : Date) : Bool :=
  if a.y < b.y then true
  else if b.y < a.y then false
  else if a.m < b.m then true
  else if b.m < a.m then false
  else a.d ≤ b.d

/-- The next-month step of the month loop: December rolls to January 1 of
the next year, otherwise the first of the next month. -/
def nextMonth (current : Date) : Date :=
  if current.m = 12 then { y := current.y + 1, m := 1, d := 1 }
  else { y := current.y, m := current.m + 1, d := 1 }

/-- strftime of a year-month pair, zero-padding the month to two digits. -/
def monthKey (y m : ℕ) : String :=
  toString y ++ "-" ++ (if m < 10 then "0" ++ toString m else toString m)

/-- The while-loop of generate_synthetic_backtest collecting month keys from
the start date up to the end date. The loop always terminates because the
current month strictly increases; the fuel argument only bounds the
recursion and is chosen at the call site at least the number of months from
any start to the end date. -/
def monthsBetween : ℕ → Date → Date → List String
  | 0, _, _ => []
  | fuel + 1, current, stop =>
    if dateLe current stop then
      monthKey current.y current.m :: monthsBetween fuel (nextMonth current) stop
    else []

/-- The fixed market_events calendar of market-wide monthly shocks. -/
def market_events : List (String × ℚ) :=
  [("2018-02", -(1/25)), ("2018-10", -(7/100)), ("2020-03", -(1/5)),
   ("2020-04", 1/10), ("2020-05", 1/20), ("2021-01", 1/20),
   ("2022-01", -(1/20)), ("2022-06", -(2/25)), ("2023-03", -(3/100)),
   ("2023-07", 1/20)]

/-- The fixed category_events calendar, empty for categories without an
entry. -/
def category_events (category : String) : List (String × ℚ) :=
  if category = "DIV" then [("2020-03", -(3/20)), ("2022-01", 1/50)]
  else if category = "CC" then [("2020-03", -(1/10)), ("2022-01", 3/100)]
  else if category = "BND" then [("2020-03", -(1/20)), ("2022-01", -(1/10))]
  else if category = "LC" then [("2020-03", -(1/5)), ("2022-01", -(2/25))]
  else if category = "GRO" then [("2020-03", -(1/4)), ("2022-01", -(3/20)), ("2023-07", 1/10)]
  else if category = "RE" then [("2020-03", -(3/10)), ("2022-01", -(1/10))]
  else if category = "INT" then [("2020-03", -(1/4)), ("2022-01", -(1/20))]
  else if category = "COM" then [("2020-03", -(1/10)), ("2022-01", 1/10)]
  else []

/-- Python substring membership (needle in hay). -/
def containsSub (needle hay : String) : Bool :=
  hay.toList.tails.any (fun suf => needle.toList.isPrefixOf suf)

/-- The substring-based ticker-to-category heuristic of
generate_synthetic_backtest, defaulting to LC. -/
def tickerCategory (ticker : String) : String :=
  if containsSub "DIV" ticker ∨ containsSub "VYM" ticker ∨ containsSub "SCHD" ticker then "DIV"
  else if containsSub "JEPI" ticker ∨ containsSub "QYLD" ticker ∨ containsSub "DIVO" ticker then "CC"
  else if containsSub "BND" ticker ∨ containsSub "AGG" ticker ∨ containsSub "TIP" ticker then "BND"
  else if containsSub "QQQ" ticker ∨ containsSub "ARKK" ticker ∨ containsSub "VUG" ticker then "GRO"
  else if containsSub "VNQ" ticker ∨ containsSub "SCHH" ticker then "RE"
  else if containsSub "VXUS" ticker ∨ containsSub "EFA" ticker then "INT"
  else if containsSub "GLD" ticker ∨ containsSub "SLV" ticker then "COM"
  else "LC"

/-- Per-category mean monthly return assumption, default 0.007. -/
def baseReturn (category : String) : ℚ :=
  if category = "DIV" then 3/500 else if category = "CC" then 1/200
  else if category = "BND" then 3/1000 else if category = "LC" then 7/1000
  else if category = "GRO" then 1/100 else if category = "RE" then 3/500
  else if category = "INT" then 3/500 else if category = "COM" then 3/1000
  else 7/1000

/-- Per-category monthly volatility assumption, default 0.04. -/
def baseVol (category : String) : ℚ :=
  if category = "DIV" then 3/100 else if category = "CC" then 1/40
  else if category = "BND" then 1/100 else if category = "LC" then 1/25
  else if category = "GRO" then 3/50 else if category = "RE" then 1/20
  else if category = "INT" then 9/200 else if category = "COM" then 1/25
  else 1/25

/-- Per-ticker synthetic monthly return series: base return plus the
volatility-scaled standard-normal draw (noise i j for ticker i, month j),
plus the market-wide and category event shocks of the month. -/
def tickerMonthlyReturns (noise : ℕ → ℕ → ℚ) (tickers : List String)
    (months : List String) : List (List ℚ) :=
  (List.range tickers.length).map (fun i =>
    let ticker := tickers.getD i ""
    let category := tickerCategory ticker
    let br := baseReturn category
    let bv := baseVol category
    (List.range months.length).map (fun j =>
      let month := months.getD j ""
      let monthly_return := br + bv * noise i j
      let monthly_return := monthly_return + (List.lookup month market_events).getD 0
      monthly_return + (List.lookup month (category_events category)).getD 0))

/-- Monthly portfolio return series: weight Σ of the per-ticker returns. -/
def backtestPortfolioReturns (noise : ℕ → ℕ → ℚ) (tickers : List String)
    (weights : List ℚ) (months : List String) : List ℚ :=
  let ticker_returns := tickerMonthlyReturns noise tickers months
  (List.range months.length).map (fun i =>
    ((List.range tickers.length).map (fun j =>
      weights.getD j 0 * ((ticker_returns.getD j []).getD i 0))).sum)

/-- Compounded cumulative-return series starting from the given
accumulator. -/
def cumulativeRet : List ℚ → ℚ → List ℚ
  | [], _ => []
  | r :: rs, acc =>
    let acc' := acc * (1 + r)
    acc' :: cumulativeRet rs acc'

/-- Peak-to-trough maximum drawdown over the cumulative series, the running
peak/max fold of the source (peak starts at the first element). -/
def maxDrawdownCalc (cumulative : List ℚ) : ℚ :=
  match cumulative with
  | [] => 0
  | c0 :: _ =>
    (cumulative.foldl (fun st value =>
      let peak := if st.1 < value then value else st.1
      let dd := (peak - value) / peak
      (peak, if st.2 < dd then dd else st.2)) (c0, 0)).2

/-- The excess-return series of the backtest against the monthly risk-free
rate derived from 3 percent annual through the rpow oracle. -/
def backtestExcess (rpow : ℚ → ℚ → ℚ) (noise : ℕ → ℕ → ℚ) (tickers : List String)
    (weights : List ℚ) (months : List String) : List ℚ :=
  let monthly_rf := rpow (1 + 3/100) (1/12) - 1
  (backtestPortfolioReturns noise tickers weights months).map (fun r => r - monthly_rf)

/-- Backtest result dict: the monthly return series (date, return,
cumulative) and the summary statistics. -/
structure BacktestResult where
  return_series : List (String × ℚ × ℚ)
  total_return : ℚ
  annualized_return : ℚ
  annualized_vol : ℚ
  max_drawdown : ℚ
  sharpe_ratio : ℚ

/-- PortfolioAnalyzer.generate_synthetic_backtest: month grid, synthetic
monthly returns with event overlays, compounding, and summary statistics.
An empty month range makes the source index cumulative_returns[-1] out of
bounds (IndexError), modelled none; there is no guard on an empty ticker
list, which yields an all-zero monthly portfolio return series. The Sharpe
ratio divides by the std of the excess returns with no zero guard; rational
division by zero is 0 here where numpy emits an infinite float. -/
def generate_synthetic_backtest (s : ℚ → ℚ) (rpow : ℚ → ℚ → ℚ)
    (noise : ℕ → ℕ → ℚ) (tickers : List String) (weights : List ℚ)
    (start_date end_date : Date) : Option BacktestResult :=
  let months := monthsBetween (12 * (end_date.y + 2)) start_date end_date
  if months.isEmpty then none
  else
    let portfolio_returns := backtestPortfolioReturns noise tickers weights months
    let cumulative_returns := cumulativeRet portfolio_returns 1
    let total_return := cumulative_returns.getLastD 0 - 1
    let years : ℚ := (months.length : ℚ) / 12
    let annualized_return := if years > 0 then rpow (1 + total_return) (1 / years) - 1 else 0
    let monthly_std := s (popVar portfolio_returns)
    let annualized_vol := monthly_std * s 12
    let max_drawdown := maxDrawdownCalc cumulative_returns
    let excess_returns := backtestExcess rpow noise tickers weights months
    let sharpe_ratio := listMean excess_returns / s (popVar excess_returns) * s 12
    some { return_series := (List.range months.length).map (fun i =>
             (months.getD i "", portfolio_returns.getD i 0, cumulative_returns.getD i 0))
           total_return := total_return
           annualized_return := annualized_return
           annualized_vol := annualized_vol
           max_drawdown := max_drawdown
           sharpe_ratio := sharpe_ratio }

/-! Concrete inputs used by witnesses and counterexamples. -/

/-- The identity as a concrete instance of the sqrt oracle. -/
def idQ : ℚ → ℚ := fun q => q

/-- A constant-one instance of the uniform-draw oracle. -/
def onesDraw : ℕ → ℕ → ℚ := fun _ _ => 1

/-- A constant-zero instance of the standard-normal oracle of the
backtest. -/
def zeroNoise : ℕ → ℕ → ℚ := fun _ _ => 0

/-- Multiplication as a concrete instance of the fractional-power oracle. -/
def mulPow : ℚ → ℚ → ℚ := fun a b => a * b

/-- A concrete validated asset record with the given ticker, category, risk
level, 1-year return, volatility and dividend yield. -/
def mkTestETF (t c : String) (risk cagr vol dy : ℚ) : ETF :=
  { ticker := t, name := t, dividend_yield := dy, cagr_1y := cagr,
    cagr_3y := cagr, cagr_5y := cagr, volatility := vol, beta := 1,
    max_drawdown := -(1/5), risk_level := risk, category := c,
    dividend_quality := 1/2, dividend_growth := 1/50,
    dividend_consistency := 1/2 }

/-- Asset A of the two-asset example: return 0.06, volatility 0.15. -/
def etfA : ETF := mkTestETF "AAA" "LC" 5 (3/50) (3/20) (1/50)

/-- Asset B of the two-asset example: return 0.08, volatility 0.20. -/
def etfB : ETF := mkTestETF "BBB" "LC" 5 (2/25) (1/5) (1/50)

/-- The two-asset candidate set of the min-variance example. -/
def etfsAB : List ETF := [etfA, etfB]

/-- A three-asset candidate set. -/
def etfs3 : List ETF := [etfA, etfB, mkTestETF "CCC" "DIV" 3 (1/10) (3/20) (3/100)]

/-- A raw record that passes the validity filter. -/
def rawValid (t c : String) : RawETF :=
  { ticker := t, name := t, dividend_yield := some (1/50),
    expected_dividend_yield := some (1/50), cagr_1y := some (1/10),
    cagr_3y := some (1/10), cagr_5y := some (1/10), volatility := some (3/20),
    beta := some 1, max_drawdown := some (-(1/5)), risk_level := some 3,
    category := some c, dividend_quality := some (1/2),
    dividend_growth := some (1/50), dividend_consistency := some (1/2) }

/-- A raw record with a negative 1-year return, rejected by the filter. -/
def rawBad : RawETF :=
  { rawValid "XXX" "LC" with cagr_1y := some (-(1/10)) }

/-- A raw asset pool with exactly two valid assets (and one invalid). -/
def pool2 : List RawETF := [rawValid "AAA" "LC", rawValid "BBB" "DIV", rawBad]

/-- Total invested amount across a holding list. -/
def investTotal (portfolio : List Holding) : ℚ :=
  (portfolio.map (·.invest_amount)).sum

/-- A concrete one-holding portfolio with 100 invested. -/
def pDemo : List Holding := [mkHolding 100 etfA 1]

/-- A conservative balanced-focus investor profile. -/
def profileC4 : InvestorProfile :=
  { risk_tolerance := "conservative", investment_horizon := "medium",
    income_needs := "medium", investment_focus := "balanced" }

/-- A valid pool of 9 assets spanning 3 categories: the 8 dividend and bond
assets score highest under profileC4, the growth asset with risk level 9
scores 0 after the risk penalty. -/
def poolC4 : List ETF :=
  [mkTestETF "D1" "DIV" 1 (1/10) (3/20) (3/100),
   mkTestETF "D2" "DIV" 1 (1/10) (3/20) (3/100),
   mkTestETF "D3" "DIV" 1 (1/10) (3/20) (3/100),
   mkTestETF "D4" "DIV" 1 (1/10) (3/20) (3/100),
   mkTestETF "B1" "BND" 1 (1/10) (3/20) (3/100),
   mkTestETF "B2" "BND" 1 (1/10) (3/20) (3/100),
   mkTestETF "B3" "BND" 1 (1/10) (3/20) (3/100),
   mkTestETF "B4" "BND" 1 (1/10) (3/20) (3/100),
   mkTestETF "G1" "GRO" 9 (1/10) (3/20) (3/100)]

/-- The contract every successful solver result satisfies for an
n-dimensional problem with the box bounds [0.05, 0.4], the sum-1 equality
constraint and the SLSQP tolerance: solution dimension n, bounds respected,
constraint met within 1e-6. -/
def SolverRespects (n : ℕ) (solver : Option SolverResult) : Prop :=
  ∀ r, solver = some r → r.success = true →
    r.x.length = n ∧ (∀ w ∈ r.x, 1/20 ≤ w ∧ w ≤ 2/5) ∧ |r.x.sum - 1| ≤ 1/1000000

/-- The list of the four optimization methods recommend_portfolio
dispatches on. -/
def knownMethods : List String := ["sharpe", "risk_parity", "min_variance", "target_return"]

/-! Helper lemmas. -/

lemma equalWeights_sum (n : ℕ) (hn : n ≠ 0) : (equalWeights n).sum = 1 := by
  rw [equalWeights, List.sum_replicate, nsmul_eq_mul, mul_one_div,
    div_self (by exact_mod_cast hn)]

lemma equalWeights_mem {n : ℕ} {w : ℚ} (h : w ∈ equalWeights n) : w = 1 / (n : ℚ) :=
  List.eq_of_mem_replicate h

lemma equalWeights_spec (n : ℕ) (h3 : 3 ≤ n) (h20 : n ≤ 20) :
    (∀ w ∈ equalWeights n, 1/20 ≤ w ∧ w ≤ 2/5) ∧ |(equalWeights n).sum - 1| ≤ 1/1000000 := by
  have hq3 : (3 : ℚ) ≤ (n : ℚ) := by exact_mod_cast h3
  have hq20 : (n : ℚ) ≤ 20 := by exact_mod_cast h20
  have hnpos : (0 : ℚ) < (n : ℚ) := by linarith
  constructor
  · intro w hw
    rw [equalWeights_mem hw]
    constructor
    · exact one_div_le_one_div_of_le hnpos hq20
    · calc 1 / (n : ℚ) ≤ 1 / 3 := one_div_le_one_div_of_le (by norm_num) hq3
        _ ≤ 2 / 5 := by norm_num
  · rw [equalWeights_sum n (by omega)]
    norm_num

lemma solverOutcome_spec (n : ℕ) (solver : Option SolverResult)
    (hok : SolverRespects n solver) (h3 : 3 ≤ n) (h20 : n ≤ 20) :
    (∀ w ∈ solverOutcome n solver, 1/20 ≤ w ∧ w ≤ 2/5) ∧
      |(solverOutcome n solver).sum - 1| ≤ 1/1000000 := by
  cases solver with
  | none => exact equalWeights_spec n h3 h20
  | some r =>
    by_cases hs : r.success
    · obtain ⟨_, hb, hsum⟩ := hok r rfl hs
      simpa [solverOutcome, hs] using ⟨hb, hsum⟩
    · simpa [solverOutcome, hs] using equalWeights_spec n h3 h20

/-- C1 (counterexample): on a two-asset candidate set the unknown-method path
returns the equal-weight vector [1/2, 1/2], whose entries exceed the 0.40
upper bound, so not every optimizer output respects the [0.05, 0.40] box. -/
theorem optimizer_bounds_refuted :
    ¬ (∀ w ∈ optimizeDispatch "equal_weight" "growth" 1000 (1/10) none etfsAB,
        1/20 ≤ w ∧ w ≤ 2/5) := by decide

/-- C1 (amended): for every candidate set with between 3 and 20 assets (the
pipeline produces between 3 and 8), every weight vector returned by the
optimization dispatch — any method name, the solver-failure fallbacks and the
unknown-method path — lies within [0.05, 0.40] entrywise and sums to 1 within
1e-6, assuming a successful solver result respects the bounds and the
constraint it was given. -/
theorem optimizer_bounds_amended (method focus : String) (seed target : ℚ)
    (solver : Option SolverResult) (etfs : List ETF)
    (hok : SolverRespects etfs.length solver)
    (h3 : 3 ≤ etfs.length) (h20 : etfs.length ≤ 20) :
    (∀ w ∈ optimizeDispatch method focus seed target solver etfs, 1/20 ≤ w ∧ w ≤ 2/5) ∧
      |(optimizeDispatch method focus seed target solver etfs).sum - 1| ≤ 1/1000000 := by
  have hn : etfs.length ≠ 0 := by omega
  have hbase := solverOutcome_spec etfs.length solver hok h3 h20
  unfold optimizeDispatch optimize_weights_sharpe optimize_risk_parity
    optimize_min_variance optimize_target_return optimize_target_dividend
  split_ifs <;> first
    | simpa [hn] using hbase
    | exact equalWeights_spec etfs.length h3 h20

/-- C1 (witness): the amended bound theorem applied to a concrete three-asset
candidate set on the solver-raised path. -/
theorem optimizer_bounds_amended_witness :
    (∀ w ∈ optimizeDispatch "sharpe" "growth" 1000 (1/10) none etfs3, 1/20 ≤ w ∧ w ≤ 2/5) ∧
      |(optimizeDispatch "sharpe" "growth" 1000 (1/10) none etfs3).sum - 1| ≤ 1/1000000 :=
  optimizer_bounds_amended "sharpe" "growth" 1000 (1/10) none etfs3
    (fun _ hr => nomatch hr) (by decide) (by decide)

/-- C3: whenever the solver raises (oracle none) or reports non-convergence
(success false), or the method name is outside the four known values, the
dispatched optimization returns exactly the equal-weight vector [1/n] * n,
as a normal return value. -/
theorem solver_fallback_equal_weights (method focus : String) (seed target : ℚ)
    (solver : Option SolverResult) (etfs : List ETF) (hne : etfs ≠ [])
    (hfail : method ∉ knownMethods ∨ solver = none ∨
      ∃ r, solver = some r ∧ r.success = false) :
    optimizeDispatch method focus seed target solver etfs = equalWeights etfs.length := by
  have hn : etfs.length ≠ 0 := by
    simpa [List.length_eq_zero] using hne
  have hout : (solver = none ∨ ∃ r, solver = some r ∧ r.success = false) →
      solverOutcome etfs.length solver = equalWeights etfs.length := by
    rintro (rfl | ⟨r, rfl, hs⟩)
    · rfl
    · simp [solverOutcome, hs]
  unfold optimizeDispatch optimize_weights_sharpe optimize_risk_parity
    optimize_min_variance optimize_target_return optimize_target_dividend
  split_ifs with h1 h2 h3 h4 h5 <;>
    first
      | rfl
      | (rcases hfail with hm | hrest
         · exact absurd (by simp [knownMethods, *]) hm
         · simp [hn, hout hrest])

/-- C3 (witness): the fallback theorem at a concrete two-asset set with a
raising solver on the sharpe method. -/
theorem solver_fallback_equal_weights_witness :
    optimizeDispatch "sharpe" "growth" 1000 (1/10) none etfsAB = equalWeights etfsAB.length :=
  solver_fallback_equal_weights "sharpe" "growth" 1000 (1/10) none etfsAB
    (by decide) (Or.inr (Or.inl rfl))

/-- C8: on the candidate set A(return 0.06, volatility 0.15), B(return 0.08,
volatility 0.20), minimum-variance optimization puts at least as much weight
on A as on B. The box bounds [0.05, 0.4] with the sum-1 constraint are
infeasible for two assets, so a solver respecting its contract cannot report
success and the optimizer returns the equal-weight vector, where the two
weights are equal. -/
theorem min_variance_two_asset_ordering (solver : Option SolverResult)
    (hok : SolverRespects 2 solver) :
    (optimize_min_variance solver etfsAB).getD 1 0 ≤ (optimize_min_variance solver etfsAB).getD 0 0 := by
  have hlenAB : etfsAB.length = 2 := by decide
  unfold optimize_min_variance
  rw [hlenAB]
  norm_num
  cases solver with
  | none => simp [solverOutcome, equalWeights]
  | some r =>
    by_cases hs : r.success
    · obtain ⟨hlen, hb, hsum⟩ := hok r rfl hs
      obtain ⟨a, b, hab⟩ := List.length_eq_two.mp hlen
      rw [hab] at hb hsum
      have ha := hb a (by simp)
      have hbb := hb b (by simp)
      have hsum' : |a + b - 1| ≤ 1/1000000 := by simpa using hsum
      have : a + b ≥ 1 - 1/1000000 := by
        have := abs_le.mp hsum'
        linarith [this.1]
      linarith [ha.2, hbb.2]
    · simp [solverOutcome, hs, equalWeights]

/-- C8 (witness): the two-asset ordering at the concrete raising solver. -/
theorem min_variance_two_asset_ordering_witness :
    (optimize_min_variance none etfsAB).getD 1 0 ≤ (optimize_min_variance none etfsAB).getD 0 0 :=
  min_variance_two_asset_ordering none (fun _ hr => nomatch hr)

/-- C2 (counterexample): a raw pool on which exactly two assets pass the
validity filter, yet recommend_portfolio does not fail: it returns a
two-holding portfolio instead of the empty error result, so the selection
does not fail whenever fewer than 3 assets pass the filter. -/
theorem insufficient_candidates_refuted :
    (filter_valid_etfs pool2).length = 2 ∧
      (recommend_portfolio idQ onesDraw "growth" 1000 (1/10) none "equal_weight" none pool2).length = 2 := by
  constructor
  · decide
  · decide

lemma adjustWeights_length (ws : List ℚ) : (adjustWeights ws).length = ws.length := by
  unfold adjustWeights
  split_ifs <;> simp

lemma profileAugment_length_le :
    ∀ (l sel : List ETF) (cats : Finset String),
      sel.length ≤ (profileAugment l sel cats).length := by
  intro l
  induction l with
  | nil => intro sel cats; simp [profileAugment]
  | cons e rest ih =>
    intro sel cats
    show sel.length ≤ (if 3 ≤ cats.card ∨ 8 ≤ sel.length then sel
      else profileAugment rest (sel ++ [e]) (insert e.category cats)).length
    split_ifs with h
    · exact le_refl _
    · calc sel.length ≤ (sel ++ [e]).length := by simp
        _ ≤ _ := ih (sel ++ [e]) _

lemma divStage1_length_le :
    ∀ (l sel : List ETF), sel.length ≤ (divStage1 l sel).length := by
  intro l
  induction l with
  | nil => intro sel; simp [divStage1]
  | cons e rest ih =>
    intro sel
    show sel.length ≤ (if countCat sel e.category < 3 then divStage1 rest (sel ++ [e])
      else divStage1 rest sel).length
    split_ifs with h
    · calc sel.length ≤ (sel ++ [e]).length := by simp
        _ ≤ _ := ih (sel ++ [e])
    · exact ih sel

lemma groStage1_length_le :
    ∀ (l sel : List ETF), sel.length ≤ (groStage1 l sel).length := by
  intro l
  induction l with
  | nil => intro sel; simp [groStage1]
  | cons e rest ih =>
    intro sel
    show sel.length ≤ (if 5 ≤ sel.length then sel
      else if countCat sel e.category < 2 then groStage1 rest (sel ++ [e])
      else groStage1 rest sel).length
    split_ifs with h1 h2
    · exact le_refl _
    · calc sel.length ≤ (sel ++ [e]).length := by simp
        _ ≤ _ := ih (sel ++ [e])
    · exact ih sel

lemma groFallback_length_le :
    ∀ (l sel : List ETF), sel.length ≤ (groFallback l sel).length := by
  intro l
  induction l with
  | nil => intro sel; simp [groFallback]
  | cons e rest ih =>
    intro sel
    show sel.length ≤ (if e ∉ sel ∧ countCat sel e.category < 2 then
        (if 3 ≤ (sel ++ [e]).length then sel ++ [e] else groFallback rest (sel ++ [e]))
      else groFallback rest sel).length
    split_ifs with h1 h2
    · simp
    · calc sel.length ≤ (sel ++ [e]).length := by simp
        _ ≤ _ := ih (sel ++ [e])
    · exact ih sel

lemma topStage_length_le (isDiv : Bool) :
    ∀ (l top : List ETF), top.length ≤ (topStage isDiv l top).length := by
  intro l
  induction l with
  | nil => intro top; simp [topStage]
  | cons e rest ih =>
    intro top
    show top.length ≤ (if 8 ≤ top.length then top
      else if isDiv ∧ 3 ≤ countCat top e.category then topStage isDiv rest top
      else topStage isDiv rest (top ++ [e])).length
    split_ifs with h1 h2
    · exact le_refl _
    · exact ih top
    · calc top.length ≤ (top ++ [e]).length := by simp
        _ ≤ _ := ih (top ++ [e])

lemma fillStage_length_le (isDiv : Bool) :
    ∀ (l top : List ETF) (k : ℕ), top.length ≤ (fillStage isDiv l top k).length := by
  intro l
  induction l with
  | nil => intro top k; simp [fillStage]
  | cons e rest ih =>
    intro top k
    show top.length ≤ (if 8 ≤ top.length ∨ (isDiv ∧ 3 ≤ countCat top e.category) then top
      else if k ≤ 1 then top ++ [e] else fillStage isDiv rest (top ++ [e]) (k - 1)).length
    split_ifs with h1 h2
    · exact le_refl _
    · simp
    · calc top.length ≤ (top ++ [e]).length := by simp
        _ ≤ _ := ih (top ++ [e]) (k - 1)

lemma topStage_pos (isDiv : Bool) (lst : List ETF) (h : lst ≠ []) :
    0 < (topStage isDiv lst []).length := by
  cases lst with
  | nil => exact absurd rfl h
  | cons x t =>
    show 0 < (if 8 ≤ ([] : List ETF).length then ([] : List ETF)
      else if isDiv ∧ 3 ≤ countCat [] x.category then topStage isDiv t []
      else topStage isDiv t ([] ++ [x])).length
    rw [if_neg (by simp), if_neg (by simp [countCat])]
    exact lt_of_lt_of_le (by simp) (topStage_length_le isDiv t ([] ++ [x]))

lemma divStage1_pos (lst : List ETF) (h : lst ≠ []) : 0 < (divStage1 lst []).length := by
  cases lst with
  | nil => exact absurd rfl h
  | cons x t =>
    show 0 < (if countCat [] x.category < 3 then divStage1 t ([] ++ [x])
      else divStage1 t []).length
    rw [if_pos (by simp [countCat])]
    exact lt_of_lt_of_le (by simp) (divStage1_length_le t ([] ++ [x]))

lemma groStage1_pos (lst : List ETF) (h : lst ≠ []) : 0 < (groStage1 lst []).length := by
  cases lst with
  | nil => exact absurd rfl h
  | cons x t =>
    show 0 < (if 5 ≤ ([] : List ETF).length then ([] : List ETF)
      else if countCat [] x.category < 2 then groStage1 t ([] ++ [x])
      else groStage1 t []).length
    rw [if_neg (by simp), if_pos (by simp [countCat])]
    exact lt_of_lt_of_le (by simp) (groStage1_length_le t ([] ++ [x]))

lemma fillIf_pos (isDiv : Bool) (r top : List ETF) (k : ℕ) (h : 0 < top.length) :
    0 < (if top.length < 3 then fillStage isDiv r top k else top).length := by
  split_ifs with hc
  · exact lt_of_lt_of_le h (fillStage_length_le isDiv r top k)
  · exact h

lemma groLst_ne_nil (sorted : List ETF) (h : sorted ≠ []) :
    (if (groStage1 sorted []).length < 3 then groFallback sorted (groStage1 sorted [])
      else groStage1 sorted []) ≠ [] := by
  apply List.ne_nil_of_length_pos
  have hs1 := groStage1_pos sorted h
  split_ifs with hc
  · exact lt_of_lt_of_le hs1 (groFallback_length_le sorted _)
  · exact hs1

lemma augIf_pos (c : Prop) [Decidable c] (m sel : List ETF) (cats : Finset String)
    (h : 0 < sel.length) :
    0 < (if c then profileAugment m sel cats else sel).length := by
  split_ifs with hc
  · exact lt_of_lt_of_le h (profileAugment_length_le m sel cats)
  · exact h

lemma select_top_etfs_ne_nil (valid : List ETF) (focus : String) (t sd : ℚ)
    (h : valid ≠ []) : select_top_etfs valid focus t sd ≠ [] := by
  have hv : 0 < valid.length := List.length_pos.mpr h
  apply List.ne_nil_of_length_pos
  unfold select_top_etfs
  by_cases hfoc : focus = "dividend"
  · rw [if_pos hfoc]
    have hsort : List.insertionSort
        (fun a b : ETF => |a.dividend_yield - (if sd > 0 then (t * 12) / sd else 0)| ≤
          |b.dividend_yield - (if sd > 0 then (t * 12) / sd else 0)|) valid ≠ [] := by
      apply List.ne_nil_of_length_pos
      rw [List.length_insertionSort]
      exact hv
    exact fillIf_pos true _ _ _
      (topStage_pos true _ (List.ne_nil_of_length_pos (divStage1_pos _ hsort)))
  · rw [if_neg hfoc]
    have hsort : List.insertionSort
        (fun a b : ETF => |a.cagr_1y - t| ≤ |b.cagr_1y - t|) valid ≠ [] := by
      apply List.ne_nil_of_length_pos
      rw [List.length_insertionSort]
      exact hv
    exact fillIf_pos false _ _ _ (topStage_pos false _ (groLst_ne_nil _ hsort))

lemma select_etfs_by_profile_ne_nil (valid : List ETF) (profile : InvestorProfile)
    (t sd : ℚ) (h : valid ≠ []) : select_etfs_by_profile valid profile t sd ≠ [] := by
  have hv : 0 < valid.length := List.length_pos.mpr h
  apply List.ne_nil_of_length_pos
  unfold select_etfs_by_profile
  have hsel : 0 < (((List.insertionSort (fun a b : ETF × ℚ => b.2 ≤ a.2)
      (valid.map (fun e => (e, profileScore profile t sd e)))).take 8).map (·.1)).length := by
    rw [List.length_map, List.length_take, List.length_insertionSort, List.length_map]
    omega
  exact augIf_pos _ _ _ _ hsel

lemma optimizeDispatch_ne_nil (method focus : String) (seed target : ℚ)
    (solver : Option SolverResult) (top : List ETF) (htop : top ≠ [])
    (hsol : ∀ r, solver = some r → r.success = true → r.x ≠ []) :
    optimizeDispatch method focus seed target solver top ≠ [] := by
  have hn : top.length ≠ 0 := by simpa [List.length_eq_zero] using htop
  have heq : equalWeights top.length ≠ [] := by
    simp [equalWeights, List.replicate_eq_nil_iff, hn]
  have hout : solverOutcome top.length solver ≠ [] := by
    cases solver with
    | none => exact heq
    | some r =>
      by_cases hs : r.success
      · simpa [solverOutcome, hs] using hsol r rfl hs
      · simpa [solverOutcome, hs] using heq
  unfold optimizeDispatch optimize_weights_sharpe optimize_risk_parity
    optimize_min_variance optimize_target_return optimize_target_dividend
  split_ifs <;> first
    | simpa [hn] using hout
    | exact heq

lemma build_portfolio_ne_nil (etfs : List ETF) (ws : List ℚ) (seed : ℚ)
    (he : etfs ≠ []) (hw : ws ≠ []) : build_portfolio etfs ws seed ≠ [] := by
  apply List.ne_nil_of_length_pos
  unfold build_portfolio
  rw [List.length_insertionSort, List.length_zipWith, adjustWeights_length]
  have h1 : 0 < etfs.length := List.length_pos.mpr he
  have h2 : 0 < ws.length := List.length_pos.mpr hw
  omega

/-- C2 (amended): the selection pipeline fails — the error return of the
empty portfolio, surfaced to the caller — exactly when zero assets pass the
validity filter (1-year return strictly positive); the source only checks
for an empty valid list, not for fewer than 3, and with at least one valid
asset it always returns a nonempty portfolio (assuming a successful solver
returns a nonempty vector). -/
theorem select_fails_on_zero_valid (s : ℚ → ℚ) (draws : ℕ → ℕ → ℚ)
    (focus : String) (seed target : ℚ) (profile : Option InvestorProfile)
    (method : String) (solver : Option SolverResult) (etf_list : List RawETF)
    (hsol : ∀ r, solver = some r → r.success = true → r.x ≠ []) :
    recommend_portfolio s draws focus seed target profile method solver etf_list = [] ↔
      filter_valid_etfs etf_list = [] := by
  constructor
  · intro hrec
    by_contra hval
    cases profile with
    | none =>
      simp only [recommend_portfolio] at hrec
      rw [if_neg hval, List.map_eq_nil_iff] at hrec
      have htop := select_top_etfs_ne_nil (filter_valid_etfs etf_list) focus target seed hval
      exact build_portfolio_ne_nil _ _ _ htop
        (optimizeDispatch_ne_nil method focus seed target solver _ htop hsol) hrec
    | some pr =>
      simp only [recommend_portfolio] at hrec
      rw [if_neg hval, List.map_eq_nil_iff] at hrec
      have htop := select_etfs_by_profile_ne_nil (filter_valid_etfs etf_list) pr target seed hval
      exact build_portfolio_ne_nil _ _ _ htop
        (optimizeDispatch_ne_nil method focus seed target solver _ htop hsol) hrec
  · intro h
    unfold recommend_portfolio
    simp [h]

/-- C2 (witness): the zero-valid failure at a concrete pool whose only asset
has a negative 1-year return. -/
theorem select_fails_on_zero_valid_witness :
    recommend_portfolio idQ onesDraw "growth" 1000 (1/10) none "sharpe" none [rawBad] = [] :=
  (select_fails_on_zero_valid idQ onesDraw "growth" 1000 (1/10) none "sharpe" none [rawBad]
    (fun _ hr => nomatch hr)).mpr (by decide)

lemma sum_map_div (l : List ℚ) (c : ℚ) :
    (l.map (fun w => w / c)).sum = l.sum / c := by
  induction l with
  | nil => simp
  | cons a t ih => simp [ih, add_div]

lemma zip_invest_sum (seed : ℚ) :
    ∀ (etfs : List ETF) (ws : List ℚ), etfs.length = ws.length →
      ((List.zipWith (mkHolding seed) etfs ws).map (·.invest_amount)).sum = seed * ws.sum := by
  intro etfs
  induction etfs with
  | nil =>
    intro ws h
    have : ws = [] := List.length_eq_zero.mp h.symm
    subst this
    simp
  | cons e et ih =>
    intro ws h
    cases ws with
    | nil => simp at h
    | cons w wt =>
      have hlen : et.length = wt.length := by simpa using h
      simp only [List.zipWith_cons_cons, List.map_cons, List.sum_cons, ih wt hlen]
      show seed * w + seed * wt.sum = seed * (w + wt.sum)
      ring

lemma investTotal_build (etfs : List ETF) (ws : List ℚ) (seed : ℚ)
    (hlen : etfs.length = ws.length) :
    investTotal (build_portfolio etfs ws seed) = seed * (adjustWeights ws).sum := by
  unfold investTotal build_portfolio
  have hperm := List.perm_insertionSort (fun a b : Holding => b.weight ≤ a.weight)
    (List.zipWith (mkHolding seed) etfs (adjustWeights ws))
  rw [(hperm.map (·.invest_amount)).sum_eq]
  exact zip_invest_sum seed etfs (adjustWeights ws)
    (hlen.trans (adjustWeights_length ws).symm)

/-- C10 (counterexample): the empty candidate list with the empty (vacuously
positive, equal-length) weight vector takes the renormalization branch, yet
the built portfolio invests 0 rather than the capital, so the claim fails at
capital 1. -/
theorem build_portfolio_capital_refuted :
    ([] : List ETF).length = ([] : List ℚ).length ∧ (∀ w ∈ ([] : List ℚ), 0 < w) ∧
      1/1000000 < |([] : List ℚ).sum - 1| ∧
      investTotal (build_portfolio [] [] 1) ≠ 1 := by decide

/-- C10 (amended): for every candidate list, nonempty positive weight vector
of the same length, and nonnegative capital: when the weight sum deviates
from 1 by more than 1e-6 the weights are renormalized and the invested
amounts sum exactly to the capital; otherwise the invested total deviates
from the capital by at most capital times 1e-6. -/
theorem build_portfolio_capital_amended (etfs : List ETF) (weights : List ℚ)
    (seed_money : ℚ) (hlen : etfs.length = weights.length) (hne : weights ≠ [])
    (hpos : ∀ w ∈ weights, 0 < w) (hseed : 0 ≤ seed_money) :
    (1/1000000 < |weights.sum - 1| →
      investTotal (build_portfolio etfs weights seed_money) = seed_money) ∧
    (|weights.sum - 1| ≤ 1/1000000 →
      |investTotal (build_portfolio etfs weights seed_money) - seed_money| ≤
        seed_money * (1/1000000)) := by
  have htot : 0 < weights.sum := List.sum_pos weights hpos hne
  have hkey := investTotal_build etfs weights seed_money hlen
  constructor
  · intro h
    rw [hkey]
    unfold adjustWeights
    rw [if_pos h, sum_map_div, div_self (ne_of_gt htot), mul_one]
  · intro h
    rw [hkey]
    unfold adjustWeights
    rw [if_neg (not_lt.mpr h)]
    have hre : seed_money * weights.sum - seed_money = seed_money * (weights.sum - 1) := by ring
    rw [hre, abs_mul, abs_of_nonneg hseed]
    exact mul_le_mul_of_nonneg_left h hseed

/-- C10 (witness): the capital bound on a concrete two-asset build with
weights summing to 1. -/
theorem build_portfolio_capital_amended_witness :
    |investTotal (build_portfolio etfsAB [1/2, 1/2] 1000) - 1000| ≤ 1000 * (1/1000000) :=
  (build_portfolio_capital_amended etfsAB [1/2, 1/2] 1000 (by decide) (by decide)
    (by decide) (by decide)).2 (by decide)

/-- C7: for every portfolio, a scenario name outside the fixed four returns
the error dict immediately, with no impact computation performed (the match
takes the error branch before any per-asset work). -/
theorem stress_test_unknown_scenario (portfolio : List Holding) (scenario : String)
    (hs : scenario ∉ ["bear_market", "inflation", "tech_crash", "fed_pivot"]) :
    stress_test_portfolio portfolio scenario =
      some (StressReturn.err ("지원하지 않는 시나리오: " ++ scenario)) := by
  have h1 : scenario ≠ "bear_market" := by intro h; exact hs (by simp [h])
  have h2 : scenario ≠ "inflation" := by intro h; exact hs (by simp [h])
  have h3 : scenario ≠ "tech_crash" := by intro h; exact hs (by simp [h])
  have h4 : scenario ≠ "fed_pivot" := by intro h; exact hs (by simp [h])
  unfold stress_test_portfolio scenarioDef
  simp [h1, h2, h3, h4]

/-- C7 (witness): the unknown-scenario error at a concrete name. -/
theorem stress_test_unknown_scenario_witness :
    stress_test_portfolio [] "black_swan" =
      some (StressReturn.err ("지원하지 않는 시나리오: " ++ "black_swan")) :=
  stress_test_unknown_scenario [] "black_swan" (by decide)

/-- C5: for every portfolio and every one of the four known scenarios, a
returned stress result satisfies new_portfolio_value = total_investment +
total_value_change exactly, where total_value_change is the sum of the
per-asset value changes and each value change is invested amount times
impact. -/
theorem stress_test_conservation (portfolio : List Holding) (scenario : String)
    (hs : scenario ∈ ["bear_market", "inflation", "tech_crash", "fed_pivot"])
    (r : StressData)
    (hr : stress_test_portfolio portfolio scenario = some (StressReturn.ok r)) :
    r.new_portfolio_value = r.total_investment + r.total_value_change ∧
      r.total_value_change = (r.asset_impacts.map (·.value_change)).sum ∧
      ∀ a ∈ r.asset_impacts, a.value_change = a.current_value * a.impact := by
  clear hs
  unfold stress_test_portfolio at hr
  cases hsc : scenarioDef scenario with
  | none => rw [hsc] at hr; simp at hr
  | some sp =>
    rw [hsc] at hr
    have hr' : (if (portfolio.map (·.invest_amount)).sum = 0 then none
        else some (StressReturn.ok (mkStressData scenario sp portfolio))) =
        some (StressReturn.ok r) := hr
    by_cases h0 : (portfolio.map (·.invest_amount)).sum = 0
    · rw [if_pos h0] at hr'; exact absurd hr' (by simp)
    · rw [if_neg h0] at hr'
      have hok := Option.some.inj hr'
      have hD := StressReturn.ok.inj hok
      subst hD
      refine ⟨rfl, rfl, ?_⟩
      intro a ha
      obtain ⟨p, _, hp⟩ := List.mem_map.mp ha
      subst hp
      simp [stressImpact, mkHolding]

/-- C5 (witness): the conservation identity at the concrete demo portfolio
under the bear-market scenario. -/
theorem stress_test_conservation_witness :
    ∃ r, stress_test_portfolio pDemo "bear_market" = some (StressReturn.ok r) ∧
      r.new_portfolio_value = r.total_investment + r.total_value_change := by
  refine ⟨_, rfl, ?_⟩
  exact (stress_test_conservation pDemo "bear_market" (by decide) _ rfl).1

/-- C6 (counterexample): the backtest engine does not short-circuit an empty
portfolio: on the empty ticker and weight lists over January 2020 it returns
a populated result with a one-month return series, and the standard
deviation of the excess-return series — the divisor of its Sharpe-ratio
computation — is 0 at that input, so the division by zero is reached rather
than avoided by an empty result. -/
theorem backtest_no_empty_shortcircuit :
    ((generate_synthetic_backtest idQ mulPow zeroNoise [] []
        { y := 2020, m := 1, d := 1 } { y := 2020, m := 1, d := 31 }).map
      (fun r => r.return_series.length)) = some 1 ∧
    monthsBetween (12 * (2020 + 2)) { y := 2020, m := 1, d := 1 } { y := 2020, m := 1, d := 31 } =
      ["2020-01"] ∧
    idQ (popVar (backtestExcess mulPow zeroNoise [] [] ["2020-01"])) = 0 := by
  refine ⟨?_, ?_, ?_⟩ <;> decide

/-- C6 (amended): the Monte Carlo simulation returns the null result whenever
the portfolio's total invested capital is ≤ 0, before any division; the
backtest engine itself has no empty-portfolio guard (that guard lives in the
caller), and on an empty portfolio it computes a populated result whose
Sharpe division has a zero divisor. -/
theorem monte_carlo_zero_capital_guard (s : ℚ → ℚ) (rpow : ℚ → ℚ → ℚ)
    (noise : ℕ → ℕ → ℕ → ℕ → ℚ) (portfolio : List Holding) (n_sim years : ℕ)
    (alpha : ℚ) (htot : totalInvest portfolio ≤ 0) :
    monte_carlo_simulation s rpow noise portfolio n_sim years alpha = none := by
  unfold monte_carlo_simulation
  simp [htot]

/-- C6 (witness): the zero-capital guard at the empty portfolio. -/
theorem monte_carlo_zero_capital_guard_witness :
    monte_carlo_simulation idQ mulPow (fun _ _ _ _ => 0) [] 1000 10 (1/20) = none :=
  monte_carlo_zero_capital_guard idQ mulPow (fun _ _ _ _ => 0) [] 1000 10 (1/20)
    (by decide)

lemma pickMaxBy_mem {α : Type} (f : α → ℚ) :
    ∀ (ys : List α) (x : α), pickMaxBy f x ys ∈ x :: ys := by
  intro ys
  induction ys with
  | nil => intro x; simp [pickMaxBy]
  | cons y t ih =>
    intro x
    show pickMaxBy f (if f x < f y then y else x) t ∈ x :: y :: t
    by_cases h : f x < f y
    · rw [if_pos h]
      exact List.mem_cons_of_mem x (ih y)
    · rw [if_neg h]
      rcases List.mem_cons.mp (ih x) with h1 | h1
      · rw [h1]; exact List.mem_cons_self _ _
      · exact List.mem_cons_of_mem x (List.mem_cons_of_mem y h1)

lemma pickMaxBy_le {α : Type} (f : α → ℚ) :
    ∀ (ys : List α) (x a : α), a ∈ x :: ys → f a ≤ f (pickMaxBy f x ys) := by
  intro ys
  induction ys with
  | nil =>
    intro x a ha
    have hax : a = x := by simpa using ha
    subst hax
    simp [pickMaxBy]
  | cons y t ih =>
    intro x a ha
    show f a ≤ f (pickMaxBy f (if f x < f y then y else x) t)
    have hx : f x ≤ f (if f x < f y then y else x) := by
      by_cases h : f x < f y
      · rw [if_pos h]; exact le_of_lt h
      · rw [if_neg h]
    have hy : f y ≤ f (if f x < f y then y else x) := by
      by_cases h : f x < f y
      · rw [if_pos h]
      · rw [if_neg h]; exact le_of_not_lt h
    have hz := ih (if f x < f y then y else x) (if f x < f y then y else x)
      (List.mem_cons_self _ _)
    rcases List.mem_cons.mp ha with rfl | ha'
    · exact le_trans hx hz
    rcases List.mem_cons.mp ha' with rfl | ha''
    · exact le_trans hy hz
    · exact ih _ a (List.mem_cons_of_mem _ ha'')

lemma pickMinBy_mem {α : Type} (f : α → ℚ) :
    ∀ (ys : List α) (x : α), pickMinBy f x ys ∈ x :: ys := by
  intro ys
  induction ys with
  | nil => intro x; simp [pickMinBy]
  | cons y t ih =>
    intro x
    show pickMinBy f (if f y < f x then y else x) t ∈ x :: y :: t
    by_cases h : f y < f x
    · rw [if_pos h]
      exact List.mem_cons_of_mem x (ih y)
    · rw [if_neg h]
      rcases List.mem_cons.mp (ih x) with h1 | h1
      · rw [h1]; exact List.mem_cons_self _ _
      · exact List.mem_cons_of_mem x (List.mem_cons_of_mem y h1)

lemma pickMinBy_ge {α : Type} (f : α → ℚ) :
    ∀ (ys : List α) (x a : α), a ∈ x :: ys → f (pickMinBy f x ys) ≤ f a := by
  intro ys
  induction ys with
  | nil =>
    intro x a ha
    have hax : a = x := by simpa using ha
    subst hax
    simp [pickMinBy]
  | cons y t ih =>
    intro x a ha
    show f (pickMinBy f (if f y < f x then y else x) t) ≤ f a
    have hx : f (if f y < f x then y else x) ≤ f x := by
      by_cases h : f y < f x
      · rw [if_pos h]; exact le_of_lt h
      · rw [if_neg h]
    have hy : f (if f y < f x then y else x) ≤ f y := by
      by_cases h : f y < f x
      · rw [if_pos h]
      · rw [if_neg h]; exact le_of_not_lt h
    have hz := ih (if f y < f x then y else x) (if f y < f x then y else x)
      (List.mem_cons_self _ _)
    rcases List.mem_cons.mp ha with rfl | ha'
    · exact le_trans hz hx
    rcases List.mem_cons.mp ha' with rfl | ha''
    · exact le_trans hz hy
    · exact ih _ a (List.mem_cons_of_mem _ ha'')

lemma frontierPoint_weights_sum (s : ℚ → ℚ) (rv vols raw : List ℚ)
    (h : 0 < raw.sum) : (frontierPoint s rv vols raw).weights.sum = 1 := by
  show (raw.map (fun w => w / raw.sum)).sum = 1
  rw [sum_map_div, div_self (ne_of_gt h)]

/-- C9: the frontier sampler returns the empty result on fewer than 2
candidates; with at least 2 candidates and at least one sample whose raw
draws have positive sum per row, it returns data in which every sampled
weight vector sums to 1, the reported max-Sharpe point is one of the samples
attaining the maximum Sharpe ratio, and the reported min-volatility point is
one of the samples attaining the minimum volatility. -/
theorem efficient_frontier_spec (s : ℚ → ℚ) (draws : ℕ → ℕ → ℚ) (num : ℕ)
    (etfs : List ETF) :
    (etfs.length < 2 → generate_efficient_frontier s draws num etfs = none) ∧
    (2 ≤ etfs.length → 1 ≤ num →
      (∀ k, k < num → 0 < ((List.range etfs.length).map (fun i => draws k i)).sum) →
      ∃ fd, generate_efficient_frontier s draws num etfs = some fd ∧
        (∀ p ∈ fd.portfolios, p.weights.sum = 1) ∧
        fd.max_sharpe ∈ fd.portfolios ∧
        (∀ p ∈ fd.portfolios, p.sharpe ≤ fd.max_sharpe.sharpe) ∧
        fd.min_volatility ∈ fd.portfolios ∧
        (∀ p ∈ fd.portfolios, fd.min_volatility.volatility ≤ p.volatility)) := by
  constructor
  · intro h
    unfold generate_efficient_frontier
    rw [if_pos h]
  · intro h2 hnum hpos
    have hlt : ¬ etfs.length < 2 := not_lt.mpr h2
    cases hres : frontierResults s draws num etfs with
    | nil =>
      exfalso
      have hrange : List.range num = [] := List.map_eq_nil_iff.mp hres
      rw [List.range_eq_nil] at hrange
      omega
    | cons r rs =>
      have hsum : ∀ p ∈ r :: rs, p.weights.sum = 1 := by
        intro p hp
        have hp' : p ∈ frontierResults s draws num etfs := hres ▸ hp
        obtain ⟨k, hk, rfl⟩ := List.mem_map.mp hp'
        exact frontierPoint_weights_sum s _ _ _ (hpos k (List.mem_range.mp hk))
      have hgen : generate_efficient_frontier s draws num etfs = some
          { portfolios := r :: rs
            max_sharpe := pickMaxBy (·.sharpe) r rs
            min_volatility := pickMinBy (·.volatility) r rs
            etf_points := etfs.map (fun e =>
              let sh : ℚ := if e.volatility > 0 then (e.cagr_1y - 3/100) / e.volatility else 0
              { ticker := e.ticker, name := e.name, ret := e.cagr_1y,
                volatility := e.volatility, sharpe := sh }) } := by
        unfold generate_efficient_frontier
        rw [if_neg hlt, hres]
      exact ⟨_, hgen, hsum, pickMaxBy_mem (·.sharpe) rs r,
        (fun p hp => pickMaxBy_le (·.sharpe) rs r p hp),
        pickMinBy_mem (·.volatility) rs r,
        (fun p hp => pickMinBy_ge (·.volatility) rs r p hp)⟩

/-- C9 (witness): the frontier properties at a concrete two-asset set with
100 constant-one draw batches and the identity sqrt oracle. -/
theorem efficient_frontier_spec_witness :
    ∃ fd, generate_efficient_frontier idQ onesDraw 100 etfsAB = some fd ∧
      (∀ p ∈ fd.portfolios, p.weights.sum = 1) ∧
      fd.max_sharpe ∈ fd.portfolios ∧
      (∀ p ∈ fd.portfolios, p.sharpe ≤ fd.max_sharpe.sharpe) ∧
      fd.min_volatility ∈ fd.portfolios ∧
      (∀ p ∈ fd.portfolios, fd.min_volatility.volatility ≤ p.volatility) :=
  (efficient_frontier_spec idQ onesDraw 100 etfsAB).2 (by decide) (by decide) (by decide)

/-- C4: on a valid pool of 9 assets spanning 3 categories, the profile-driven
selector returns 8 candidates spanning only 2 categories: the
category-diversity augmentation loop breaks immediately because 8 assets are
already selected, contradicting its own diversity comment, so the claimed
at-least-3-categories invariant fails. -/
theorem profile_selection_category_bug :
    poolC4.length = 9 ∧
    ((poolC4.map (·.category)).toFinset.card = 3) ∧
    (select_etfs_by_profile poolC4 profileC4 (1/10) 1000).length = 8 ∧
    (((select_etfs_by_profile poolC4 profileC4 (1/10) 1000).map (·.category)).toFinset.card = 2) := by
  refine ⟨by decide, by decide, by decide, by decide⟩
